import Mathlib

/-!
Shallow embedding of the AiToy BLE authenticated-session protocol.

Peripheral side: the ESP32 sketch (src/unnamed/part_000) — global state
`deviceConnected` / `isAuthenticated` / `authAttempts`, the server
connect/disconnect callbacks, the Auth- and Data-characteristic write
callbacks and the `loop()` body, modelled as a step function over an
explicit state, emitting the list of notifications each callback sends.

Central side: the React Native app (src/App.tsx) — `connectToDevice`
and `connectToDeviceByName`, modelled over an explicit transport-outcome
record and an explicit mirror-state record.
-/

namespace AiToy

/-! ## Peripheral firmware model (src/unnamed/part_000) -/

/-- `String devicePassword = "HEALTH2024";` -/
def devicePassword : String := "HEALTH2024"

/-- `const int maxAuthAttempts = 3;` -/
def maxAuthAttempts : Nat := 3

/-- A notification sent by the peripheral: `pStatusCharacteristic->notify()`
carries a `status` payload, `pDataCharacteristic->notify()` a `data` payload. -/
inductive Notif where
  | status (s : String)
  | data (s : String)
  deriving DecidableEq, Repr

/-- The peripheral's mutable globals: `deviceConnected`, `isAuthenticated`,
`authAttempts`. -/
structure PeriphState where
  deviceConnected : Bool
  isAuthenticated : Bool
  authAttempts : Nat
  deriving DecidableEq, Repr

/-- `MyServerCallbacks::onConnect`: set connected, clear auth, zero the
attempt counter, notify Status `AUTH_REQUIRED`. -/
def onConnect (_s : PeriphState) : PeriphState × List Notif :=
  (⟨true, false, 0⟩, [Notif.status "AUTH_REQUIRED"])

/-- `MyServerCallbacks::onDisconnect`: clear all session globals; the serial
prints and advertising restart emit no notification. -/
def onDisconnect (_s : PeriphState) : PeriphState × List Notif :=
  (⟨false, false, 0⟩, [])

/-- C `isspace`: the character classes Arduino `String::trim` strips. -/
def isSpaceChar (c : Char) : Bool :=
  c = ' ' || c = '\t' || c = '\n' || c = '\x0b' || c = '\x0c' || c = '\r'

/-- Arduino `String::trim`: remove `isspace` characters from both ends. -/
def strTrim (s : String) : String :=
  ⟨((s.data.dropWhile isSpaceChar).reverse.dropWhile isSpaceChar).reverse⟩

/-- `AuthCallbacks::onWrite`. Returns the new state, the notifications sent,
and whether `pServer->disconnect(...)` was invoked (the max-attempts branch). -/
def authOnWrite (s : PeriphState) (value : String) : PeriphState × List Notif × Bool :=
  if 0 < value.length then
    let receivedPassword := strTrim value
    if receivedPassword = devicePassword then
      ({ s with isAuthenticated := true, authAttempts := 0 },
       ([Notif.status "AUTH_SUCCESS"], false))
    else
      let attempts := s.authAttempts + 1
      if maxAuthAttempts ≤ attempts then
        ({ s with authAttempts := attempts },
         ([Notif.status "AUTH_FAILED_MAX"], true))
      else
        ({ s with authAttempts := attempts },
         ([Notif.status ("AUTH_FAILED:" ++ toString (maxAuthAttempts - attempts))], false))
  else
    (s, ([], false))

/-- `DataCallbacks::onWrite`: drop silently when not authenticated, otherwise
echo a non-empty payload back as `"ESP32: " + value` on the Data channel. -/
def dataOnWrite (s : PeriphState) (value : String) : PeriphState × List Notif :=
  if s.isAuthenticated = false then
    (s, [])
  else if 0 < value.length then
    (s, [Notif.data ("ESP32: " ++ value)])
  else
    (s, [])

/-- The periodic sample `loop()` sends on the Data channel. -/
def healthData : String := "HeartRate:75,SpO2:98"

/-- The body of `loop()`: while connected and authenticated, if more than
5000 ms passed since `lastSendTime`, notify `healthData` on the Data channel
and record the send time. Returns the notifications and the new
`lastSendTime`. -/
def loopBody (s : PeriphState) (millis lastSendTime : Nat) : List Notif × Nat :=
  if s.deviceConnected && s.isAuthenticated && decide (5000 < millis - lastSendTime) then
    ([Notif.data healthData], millis)
  else
    ([], lastSendTime)

/-- An event delivered to the peripheral by the transport runtime (server
callbacks, characteristic writes) or by the Arduino main loop (`tick` with
the current `millis()`). -/
inductive Event where
  | connect
  | disconnect
  | authWrite (payload : String)
  | dataWrite (payload : String)
  | tick (millis : Nat)
  deriving DecidableEq, Repr

/-- Full peripheral state: the session globals plus the `static unsigned long
lastSendTime` local of `loop()` (which is not reset on disconnect). -/
structure SysState where
  periph : PeriphState
  lastSendTime : Nat
  deriving DecidableEq, Repr

/-- Power-on state: all globals false/zero. -/
def initState : SysState := ⟨⟨false, false, 0⟩, 0⟩

/-- One event processed to completion. In the max-attempts branch the
peripheral itself calls `pServer->disconnect`, whose disconnect callback runs
before any further event under the serialized event model, so that branch
folds the disconnect reset into the same step. -/
def step (s : SysState) (e : Event) : SysState × List Notif :=
  match e with
  | .connect =>
      let r := onConnect s.periph
      ({ s with periph := r.1 }, r.2)
  | .disconnect =>
      let r := onDisconnect s.periph
      ({ s with periph := r.1 }, r.2)
  | .authWrite v =>
      let r := authOnWrite s.periph v
      if r.2.2 then
        let d := onDisconnect r.1
        ({ s with periph := d.1 }, r.2.1 ++ d.2)
      else
        ({ s with periph := r.1 }, r.2.1)
  | .dataWrite v =>
      let r := dataOnWrite s.periph v
      ({ s with periph := r.1 }, r.2)
  | .tick m =>
      let r := loopBody s.periph m s.lastSendTime
      ({ s with lastSendTime := r.2 }, r.1)

/-- Run a sequence of events, collecting all notifications in order. -/
def run (s : SysState) : List Event → SysState × List Notif
  | [] => (s, [])
  | e :: es =>
      ((run (step s e).1 es).1, (step s e).2 ++ (run (step s e).1 es).2)

/-- Transport-validity of a trace from a given state: a characteristic write
can only be delivered while the link is connected. -/
def writesRequireConnection (s : SysState) : List Event → Bool
  | [] => true
  | e :: es =>
      (match e with
       | .authWrite _ => s.periph.deviceConnected
       | .dataWrite _ => s.periph.deviceConnected
       | _ => true) && writesRequireConnection (step s e).1 es

/-- No Auth-channel write occurs before the next Connected event. -/
def noAuthWriteBeforeConnect : List Event → Bool
  | [] => true
  | .connect :: _ => true
  | .authWrite _ :: _ => false
  | _ :: es => noAuthWriteBeforeConnect es

/-! ## Invariant machinery -/

theorem authAttempts_lt_step (s : SysState) (e : Event)
    (h : s.periph.authAttempts < maxAuthAttempts) :
    (step s e).1.periph.authAttempts < maxAuthAttempts := by
  cases e with
  | connect => simp [step, onConnect, maxAuthAttempts]
  | disconnect => simp [step, onDisconnect, maxAuthAttempts]
  | authWrite v =>
      simp only [step, authOnWrite]
      split
      · split
        · simp [maxAuthAttempts]
        · split
          · simp [onDisconnect, maxAuthAttempts]
          · rename_i hle
            simpa using Nat.lt_of_not_le hle
      · simpa using h
  | dataWrite v =>
      simp only [step, dataOnWrite]
      split
      · simp only []
        exact h
      · split
        · exact h
        · exact h
  | tick m =>
      simp only [step]
      exact h

theorem run_authAttempts_lt (es : List Event) :
    ((run initState es).1).periph.authAttempts < maxAuthAttempts := by
  have H : ∀ (l : List Event) (s : SysState),
      s.periph.authAttempts < maxAuthAttempts →
      ((run s l).1).periph.authAttempts < maxAuthAttempts := by
    intro l
    induction l with
    | nil => intro s h; simpa [run] using h
    | cons e es ih =>
        intro s h
        simpa [run] using ih (step s e).1 (authAttempts_lt_step s e h)
  exact H es initState (by decide)

theorem notConnected_noAuthWrite (es : List Event) :
    ∀ s : SysState, s.periph.deviceConnected = false →
      writesRequireConnection s es = true → noAuthWriteBeforeConnect es = true := by
  induction es with
  | nil => intro s _ _; rfl
  | cons e es ih =>
      intro s hs hv
      cases e with
      | connect => rfl
      | authWrite v => simp [writesRequireConnection, hs] at hv
      | dataWrite v => simp [writesRequireConnection, hs] at hv
      | disconnect =>
          simp only [writesRequireConnection, Bool.true_and] at hv
          have hs' : (step s Event.disconnect).1.periph.deviceConnected = false := rfl
          simpa [noAuthWriteBeforeConnect] using ih (step s Event.disconnect).1 hs' hv
      | tick m =>
          simp only [writesRequireConnection, Bool.true_and] at hv
          have hs' : (step s (Event.tick m)).1.periph.deviceConnected = false := by
            simp only [step]
            exact hs
          simpa [noAuthWriteBeforeConnect] using ih (step s (Event.tick m)).1 hs' hv

theorem length_pos_of_trim_eq_password (v : String) (hv : strTrim v = devicePassword) :
    0 < v.length := by
  by_contra h
  have h0 : v.length = 0 := Nat.le_zero.mp (Nat.not_lt.mp h)
  have hd : v.data = [] := by
    cases v with
    | mk d => simpa [String.length] using h0
  have hempty : v = "" := by
    cases v with
    | mk d => simp_all
  rw [hempty] at hv
  exact absurd hv (by decide)

/-! ## Claim theorems: peripheral -/

/-- C1: `authAttempts` never exceeds `maxAuthAttempts` on any run from the
power-on state; a non-matching Auth write that makes the counter reach
`maxAuthAttempts` emits exactly the status token `AUTH_FAILED_MAX` and the
peripheral itself terminates the connection in the same step; and in any
transport-valid continuation no Auth-channel write occurs before the next
Connected event. -/
theorem C1_max_attempts_lockout :
    (∀ es : List Event, ((run initState es).1).periph.authAttempts ≤ maxAuthAttempts) ∧
    (∀ (s : SysState) (v : String),
      s.periph.deviceConnected = true →
      0 < v.length →
      strTrim v ≠ devicePassword →
      maxAuthAttempts ≤ s.periph.authAttempts + 1 →
      (step s (Event.authWrite v)).2 = [Notif.status "AUTH_FAILED_MAX"] ∧
      (step s (Event.authWrite v)).1.periph.deviceConnected = false ∧
      ∀ es : List Event,
        writesRequireConnection (step s (Event.authWrite v)).1 es = true →
        noAuthWriteBeforeConnect es = true) := by
  constructor
  · intro es
    exact Nat.le_of_lt (run_authAttempts_lt es)
  · intro s v _hc hlen hne hmax
    have hstep : step s (Event.authWrite v) =
        ({ s with periph := ⟨false, false, 0⟩ }, [Notif.status "AUTH_FAILED_MAX"]) := by
      simp [step, authOnWrite, onDisconnect, hlen, hne, hmax]
    refine ⟨by rw [hstep], by rw [hstep], ?_⟩
    intro es hv
    exact notConnected_noAuthWrite es (step s (Event.authWrite v)).1 (by rw [hstep]) hv

theorem C1_max_attempts_lockout_witness :
    ((run initState [Event.connect]).1).periph.authAttempts ≤ maxAuthAttempts ∧
    ((step ⟨⟨true, false, 2⟩, 0⟩ (Event.authWrite "nope")).2 =
        [Notif.status "AUTH_FAILED_MAX"] ∧
      (step ⟨⟨true, false, 2⟩, 0⟩ (Event.authWrite "nope")).1.periph.deviceConnected = false ∧
      ∀ es : List Event,
        writesRequireConnection (step ⟨⟨true, false, 2⟩, 0⟩ (Event.authWrite "nope")).1 es = true →
        noAuthWriteBeforeConnect es = true) :=
  ⟨C1_max_attempts_lockout.1 [Event.connect],
   C1_max_attempts_lockout.2 ⟨⟨true, false, 2⟩, 0⟩ "nope" rfl (by decide) (by decide) (by decide)⟩

/-- C2: an Auth-channel write whose trimmed payload equals the shared secret,
received while connected with `authAttempts < maxAuthAttempts`, authenticates
the session, resets the attempt counter to 0, keeps the link up, and emits
exactly the status token `AUTH_SUCCESS`. -/
theorem C2_correct_secret_authenticates (s : SysState) (v : String)
    (hc : s.periph.deviceConnected = true)
    (_hlt : s.periph.authAttempts < maxAuthAttempts)
    (hv : strTrim v = devicePassword) :
    (step s (Event.authWrite v)).1.periph.isAuthenticated = true ∧
    (step s (Event.authWrite v)).1.periph.authAttempts = 0 ∧
    (step s (Event.authWrite v)).1.periph.deviceConnected = true ∧
    (step s (Event.authWrite v)).2 = [Notif.status "AUTH_SUCCESS"] := by
  have hlen : 0 < v.length := length_pos_of_trim_eq_password v hv
  have hstep : step s (Event.authWrite v) =
      ({ s with periph :=
          { s.periph with isAuthenticated := true, authAttempts := 0 } },
       [Notif.status "AUTH_SUCCESS"]) := by
    simp [step, authOnWrite, hlen, hv]
  rw [hstep]
  exact ⟨rfl, rfl, hc, rfl⟩

theorem C2_correct_secret_authenticates_witness :
    (step ⟨⟨true, false, 1⟩, 0⟩ (Event.authWrite " HEALTH2024 ")).1.periph.isAuthenticated = true ∧
    (step ⟨⟨true, false, 1⟩, 0⟩ (Event.authWrite " HEALTH2024 ")).1.periph.authAttempts = 0 ∧
    (step ⟨⟨true, false, 1⟩, 0⟩ (Event.authWrite " HEALTH2024 ")).1.periph.deviceConnected = true ∧
    (step ⟨⟨true, false, 1⟩, 0⟩ (Event.authWrite " HEALTH2024 ")).2 =
      [Notif.status "AUTH_SUCCESS"] :=
  C2_correct_secret_authenticates ⟨⟨true, false, 1⟩, 0⟩ " HEALTH2024 "
    rfl (by decide) (by decide)

/-- C3: a non-empty Auth-channel write whose trimmed payload differs from the
shared secret, received while `authAttempts + 1 < maxAuthAttempts`, increments
the counter by exactly 1 and emits exactly
`AUTH_FAILED:<maxAuthAttempts - (authAttempts + 1)>`, a remaining count ≥ 1. -/
theorem C3_wrong_secret_counts (s : SysState) (v : String)
    (hlen : 0 < v.length)
    (hne : strTrim v ≠ devicePassword)
    (hlt : s.periph.authAttempts + 1 < maxAuthAttempts) :
    (step s (Event.authWrite v)).1.periph.authAttempts = s.periph.authAttempts + 1 ∧
    (step s (Event.authWrite v)).2 =
      [Notif.status
        ("AUTH_FAILED:" ++ toString (maxAuthAttempts - (s.periph.authAttempts + 1)))] ∧
    1 ≤ maxAuthAttempts - (s.periph.authAttempts + 1) := by
  have hnle : ¬ maxAuthAttempts ≤ s.periph.authAttempts + 1 := Nat.not_le.mpr hlt
  have hstep : step s (Event.authWrite v) =
      ({ s with periph := { s.periph with authAttempts := s.periph.authAttempts + 1 } },
       [Notif.status
         ("AUTH_FAILED:" ++ toString (maxAuthAttempts - (s.periph.authAttempts + 1)))]) := by
    simp [step, authOnWrite, hlen, hne, hnle]
  rw [hstep]
  exact ⟨rfl, rfl, by omega⟩

theorem C3_wrong_secret_counts_witness :
    (step ⟨⟨true, false, 0⟩, 0⟩ (Event.authWrite "wrong1")).1.periph.authAttempts = 0 + 1 ∧
    (step ⟨⟨true, false, 0⟩, 0⟩ (Event.authWrite "wrong1")).2 =
      [Notif.status ("AUTH_FAILED:" ++ toString (maxAuthAttempts - (0 + 1)))] ∧
    1 ≤ maxAuthAttempts - (0 + 1) :=
  C3_wrong_secret_counts ⟨⟨true, false, 0⟩, 0⟩ "wrong1" (by decide) (by decide) (by decide)

/-- C4: every Connected event puts the session in the fresh state (connected,
unauthenticated, zero attempts) whatever the prior history, emitting exactly
`AUTH_REQUIRED`; every Disconnected event unconditionally resets all session
globals, emitting nothing. -/
theorem C4_connect_disconnect_reset (s : SysState) :
    step s Event.connect =
      ({ s with periph := ⟨true, false, 0⟩ }, [Notif.status "AUTH_REQUIRED"]) ∧
    step s Event.disconnect = ({ s with periph := ⟨false, false, 0⟩ }, []) :=
  ⟨rfl, rfl⟩

/-- C5: a non-empty Data-channel write received while authenticated leaves the
state unchanged and notifies exactly the reply `"ESP32: " ++ payload` on the
Data channel. -/
theorem C5_authenticated_echo (s : SysState) (v : String)
    (ha : s.periph.isAuthenticated = true)
    (hlen : 0 < v.length) :
    step s (Event.dataWrite v) = (s, [Notif.data ("ESP32: " ++ v)]) := by
  simp [step, dataOnWrite, ha, hlen]

theorem C5_authenticated_echo_witness :
    step ⟨⟨true, true, 0⟩, 0⟩ (Event.dataWrite "ping") =
      (⟨⟨true, true, 0⟩, 0⟩, [Notif.data "ESP32: ping"]) :=
  C5_authenticated_echo ⟨⟨true, true, 0⟩, 0⟩ "ping" rfl (by decide)

/-- C6: a Data-channel write received while unauthenticated is dropped: the
state is unchanged and no notification of any kind is emitted. -/
theorem C6_unauthenticated_data_dropped (s : SysState) (v : String)
    (ha : s.periph.isAuthenticated = false) :
    step s (Event.dataWrite v) = (s, []) := by
  simp [step, dataOnWrite, ha]

theorem C6_unauthenticated_data_dropped_witness :
    step ⟨⟨true, false, 0⟩, 0⟩ (Event.dataWrite "sneaky") = (⟨⟨true, false, 0⟩, 0⟩, []) :=
  C6_unauthenticated_data_dropped ⟨⟨true, false, 0⟩, 0⟩ "sneaky" rfl

/-- C7 counterexample: while already Authenticated (state
`⟨connected, authenticated, 0 attempts⟩`), the Auth-channel write `"oops"` is
not a no-op — the attempt counter moves to 1 and a Status notification
`AUTH_FAILED:2` is emitted, because `AuthCallbacks::onWrite` never consults
`isAuthenticated`. -/
theorem C7_auth_write_while_authenticated_not_noop :
    (step ⟨⟨true, true, 0⟩, 0⟩ (Event.authWrite "oops")).1 ≠ ⟨⟨true, true, 0⟩, 0⟩ ∧
    (step ⟨⟨true, true, 0⟩, 0⟩ (Event.authWrite "oops")).2 =
      [Notif.status "AUTH_FAILED:2"] := by
  decide

/-- C7 (amended): an Auth-channel write that arrives while already
Authenticated is processed by the same rules as any other Auth write: a
payload trimming to the secret re-emits `AUTH_SUCCESS` and zeroes the counter;
a non-empty non-matching payload below the limit increments the counter and
emits `AUTH_FAILED:<remaining>` while leaving the session authenticated; a
non-empty non-matching payload reaching the limit emits `AUTH_FAILED_MAX` and
forces disconnect, losing the authentication. -/
theorem C7_auth_write_while_authenticated_processed (s : SysState) (v : String)
    (ha : s.periph.isAuthenticated = true) :
    (strTrim v = devicePassword →
      (step s (Event.authWrite v)).1.periph.isAuthenticated = true ∧
      (step s (Event.authWrite v)).1.periph.authAttempts = 0 ∧
      (step s (Event.authWrite v)).2 = [Notif.status "AUTH_SUCCESS"]) ∧
    (0 < v.length → strTrim v ≠ devicePassword →
      s.periph.authAttempts + 1 < maxAuthAttempts →
      (step s (Event.authWrite v)).1.periph.isAuthenticated = true ∧
      (step s (Event.authWrite v)).1.periph.authAttempts = s.periph.authAttempts + 1 ∧
      (step s (Event.authWrite v)).2 =
        [Notif.status
          ("AUTH_FAILED:" ++ toString (maxAuthAttempts - (s.periph.authAttempts + 1)))]) ∧
    (0 < v.length → strTrim v ≠ devicePassword →
      maxAuthAttempts ≤ s.periph.authAttempts + 1 →
      (step s (Event.authWrite v)).1.periph = ⟨false, false, 0⟩ ∧
      (step s (Event.authWrite v)).2 = [Notif.status "AUTH_FAILED_MAX"]) := by
  refine ⟨fun hv => ?_, fun hlen hne hlt => ?_, fun hlen hne hmax => ?_⟩
  · have hlen : 0 < v.length := length_pos_of_trim_eq_password v hv
    simp [step, authOnWrite, hlen, hv]
  · have hnle : ¬ maxAuthAttempts ≤ s.periph.authAttempts + 1 := Nat.not_le.mpr hlt
    simp [step, authOnWrite, hlen, hne, hnle, ha]
  · simp [step, authOnWrite, onDisconnect, hlen, hne, hmax]

theorem C7_auth_write_while_authenticated_processed_witness :
    (step ⟨⟨true, true, 0⟩, 0⟩ (Event.authWrite "oops")).1.periph.isAuthenticated = true ∧
    (step ⟨⟨true, true, 0⟩, 0⟩ (Event.authWrite "oops")).1.periph.authAttempts = 0 + 1 ∧
    (step ⟨⟨true, true, 0⟩, 0⟩ (Event.authWrite "oops")).2 =
      [Notif.status ("AUTH_FAILED:" ++ toString (maxAuthAttempts - (0 + 1)))] :=
  (C7_auth_write_while_authenticated_processed ⟨⟨true, true, 0⟩, 0⟩ "oops" rfl).2.1
    (by decide) (by decide) (by decide)

/-- Recognizer for Data-channel write events (used to state that a trace
contains none). -/
def isDataWriteEvent : Event → Bool
  | .dataWrite _ => true
  | _ => false

/-- C8 counterexample: the run connect → correct secret → `loop()` tick at
6000 ms contains no Data-channel write at all, yet the peripheral emits the
Data-channel notification `healthData` (`loop()` sends a periodic sample while
connected and authenticated), so the tagged echo is not the only Data-channel
output. -/
theorem C8_loop_sends_unprompted_data :
    (run initState [Event.connect, Event.authWrite "HEALTH2024", Event.tick 6000]).2 =
      [Notif.status "AUTH_REQUIRED", Notif.status "AUTH_SUCCESS",
       Notif.data healthData] ∧
    List.filter isDataWriteEvent
      [Event.connect, Event.authWrite "HEALTH2024", Event.tick 6000] = [] := by
  decide

/-- C8 (amended): every Data-channel notification the peripheral emits is
either the tagged echo `"ESP32: " ++ p` replying to a non-empty Data-channel
write `p` received while authenticated, or the fixed periodic sample
`healthData` sent by the main loop while connected and authenticated. -/
theorem C8_data_notification_sources (s : SysState) (e : Event) (d : String)
    (hd : Notif.data d ∈ (step s e).2) :
    (∃ p, e = Event.dataWrite p ∧ s.periph.isAuthenticated = true ∧ 0 < p.length ∧
      d = "ESP32: " ++ p) ∨
    (∃ m, e = Event.tick m ∧ s.periph.deviceConnected = true ∧
      s.periph.isAuthenticated = true ∧ d = healthData) := by
  cases e with
  | connect => simp [step, onConnect] at hd
  | disconnect => simp [step, onDisconnect] at hd
  | authWrite v =>
      by_cases hlen : 0 < v.length
      · by_cases hv : strTrim v = devicePassword
        · simp [step, authOnWrite, hlen, hv] at hd
        · by_cases hmax : maxAuthAttempts ≤ s.periph.authAttempts + 1
          · simp [step, authOnWrite, onDisconnect, hlen, hv, hmax] at hd
          · simp [step, authOnWrite, hlen, hv, hmax] at hd
      · simp [step, authOnWrite, hlen] at hd
  | dataWrite v =>
      by_cases ha : s.periph.isAuthenticated = false
      · simp [step, dataOnWrite, ha] at hd
      · by_cases hlen : 0 < v.length
        · left
          refine ⟨v, rfl, ?_, hlen, ?_⟩
          · simpa using ha
          · simpa [step, dataOnWrite, ha, hlen] using hd
        · simp [step, dataOnWrite, ha, hlen] at hd
  | tick m =>
      by_cases hc :
          (s.periph.deviceConnected && s.periph.isAuthenticated &&
            decide (5000 < m - s.lastSendTime)) = true
      · right
        refine ⟨m, rfl, ?_, ?_, ?_⟩
        · have := (Bool.and_eq_true _ _).mp ((Bool.and_eq_true _ _).mp hc).1
          exact this.1
        · have := (Bool.and_eq_true _ _).mp ((Bool.and_eq_true _ _).mp hc).1
          exact this.2
        · simpa [step, loopBody, hc] using hd
      · simp [step, loopBody, hc] at hd

theorem C8_data_notification_sources_witness :
    (∃ p, Event.dataWrite "ping" = Event.dataWrite p ∧
      (⟨⟨true, true, 0⟩, 0⟩ : SysState).periph.isAuthenticated = true ∧ 0 < p.length ∧
      "ESP32: ping" = "ESP32: " ++ p) ∨
    (∃ m, Event.dataWrite "ping" = Event.tick m ∧
      (⟨⟨true, true, 0⟩, 0⟩ : SysState).periph.deviceConnected = true ∧
      (⟨⟨true, true, 0⟩, 0⟩ : SysState).periph.isAuthenticated = true ∧
      "ESP32: ping" = healthData) :=
  C8_data_notification_sources ⟨⟨true, true, 0⟩, 0⟩ (Event.dataWrite "ping")
    "ESP32: ping" (by decide)

/-! ## Central controller model (src/App.tsx) -/

/-- The controller's mirrored state: the `connectedDevice`,
`isAuthenticated`, `statusText` and `receivedMessages` React state, plus
whether the Status/Data notification monitors have been installed. -/
structure Mirror where
  connectedDevice : Option String
  isAuthenticated : Bool
  statusText : String
  receivedMessages : List String
  subscribedStatus : Bool
  subscribedData : Bool
  deriving DecidableEq, Repr

/-- The initial React state of `AppContent`. -/
def initMirror : Mirror := ⟨none, false, "Scan QR Code to connect", [], false, false⟩

/-- Outcome of one awaited transport call: it returns, or it throws with a
message. -/
inductive CallResult where
  | ok
  | threw (msg : String)
  deriving DecidableEq, Repr

/-- The transport outcomes `connectToDevice` awaits: `device.connect()` and
`discoverAllServicesAndCharacteristics()`. (`monitorCharacteristicForService`
installs a callback and reports failures through it, it does not throw.) -/
structure Transport where
  connectResult : CallResult
  discoverResult : CallResult
  deriving DecidableEq, Repr

/-- `connectToDevice` from App.tsx, over a device named `d`: set status
`Connecting...`; await `connect()` and record the device in the mirror; await
discovery; install the Status and Data monitors; set the success status. A
throw at any await jumps to the catch block, which only sets status
`Connection failed` and raises an alert with the error message. Returns the
resulting mirror and the alert message if the catch ran. -/
def connectToDevice (t : Transport) (d : String) (m : Mirror) : Mirror × Option String :=
  let m1 : Mirror := { m with statusText := "Connecting..." }
  match t.connectResult with
  | .threw msg => ({ m1 with statusText := "Connection failed" }, some msg)
  | .ok =>
    let m2 : Mirror := { m1 with connectedDevice := some d }
    match t.discoverResult with
    | .threw msg => ({ m2 with statusText := "Connection failed" }, some msg)
    | .ok =>
      let m3 : Mirror := { m2 with subscribedStatus := true, subscribedData := true }
      ({ m3 with statusText := "Connected! Waiting for auth..." }, none)

/-- C9 counterexample: `device.connect()` succeeds and service discovery
throws `"discovery failed"`. The error is surfaced, but the mirrored state
still records a connected device — `setConnectedDevice` ran before discovery
and the catch block never clears it. -/
theorem C9_partial_session_left :
    (connectToDevice ⟨CallResult.ok, CallResult.threw "discovery failed"⟩
      "ESP32_Health" initMirror).1.connectedDevice = some "ESP32_Health" ∧
    (connectToDevice ⟨CallResult.ok, CallResult.threw "discovery failed"⟩
      "ESP32_Health" initMirror).2 = some "discovery failed" := by
  decide

/-- C9 (amended): `connectToDevice` installs both the Status and the Data
notification monitors before reporting success, and a throw at any step
surfaces the underlying message through the alert and sets status
`Connection failed`; but mirror state written before the failing step is not
rolled back — a discovery failure leaves `connectedDevice` recorded in the
mirror. -/
theorem C9_connect_behavior (t : Transport) (d : String) (m : Mirror) :
    (t.connectResult = CallResult.ok → t.discoverResult = CallResult.ok →
      connectToDevice t d m =
        ({ m with connectedDevice := some d, subscribedStatus := true,
                  subscribedData := true,
                  statusText := "Connected! Waiting for auth..." }, none)) ∧
    (∀ msg, t.connectResult = CallResult.threw msg →
      connectToDevice t d m = ({ m with statusText := "Connection failed" }, some msg)) ∧
    (∀ msg, t.connectResult = CallResult.ok → t.discoverResult = CallResult.threw msg →
      connectToDevice t d m =
        ({ m with connectedDevice := some d,
                  statusText := "Connection failed" }, some msg)) := by
  refine ⟨fun h1 h2 => ?_, fun msg h1 => ?_, fun msg h1 h2 => ?_⟩
  · simp [connectToDevice, h1, h2]
  · simp [connectToDevice, h1]
  · simp [connectToDevice, h1, h2]

theorem C9_connect_behavior_witness :
    connectToDevice ⟨CallResult.ok, CallResult.ok⟩ "ESP32_Health" initMirror =
      ({ initMirror with connectedDevice := some "ESP32_Health",
                         subscribedStatus := true, subscribedData := true,
                         statusText := "Connected! Waiting for auth..." }, none) :=
  (C9_connect_behavior ⟨CallResult.ok, CallResult.ok⟩ "ESP32_Health" initMirror).1 rfl rfl

/-- `setTimeout(..., 10000)` in `connectToDeviceByName`. -/
def scanTimeoutMs : Nat := 10000

/-- Outcome record of one `connectToDeviceByName` call: the device the scan
callback connected to (if any), whether `stopDeviceScan` ran on the match
path, whether it ran when the 10 s timer fired, and whether the timer
handler reported `Device not found. Try again.`. -/
structure LocateResult where
  found : Option String
  scanStoppedOnSuccess : Bool
  scanStoppedOnTimeout : Bool
  notFoundReported : Bool
  deriving DecidableEq, Repr

/-- First advertisement in arrival order whose name matches the target and
which arrives while the scan is still running (before the timeout stops it). -/
def firstMatchBefore (target : String) (timeout : Nat) :
    List (Nat × String) → Option (Nat × String)
  | [] => none
  | a :: rest =>
      if a.2 = target ∧ a.1 < timeout then some a
      else firstMatchBefore target timeout rest

/-- `connectToDeviceByName` from App.tsx over a timeline of advertisements
`(arrival ms, device name)`. The scan callback connects to the first matching
advertisement and stops the scan. The `setTimeout` handler always fires at
10000 ms: it stops the scan and tests `!connectedDevice` — but
`connectedDevice` is the React state captured by the closure when the scan
started (`capturedConnectedDevice`), not the current value, so the not-found
message depends only on that snapshot. -/
def connectToDeviceByName (target : String) (adverts : List (Nat × String))
    (capturedConnectedDevice : Option String) : LocateResult :=
  match firstMatchBefore target scanTimeoutMs adverts with
  | some a =>
      { found := some a.2
        scanStoppedOnSuccess := true
        scanStoppedOnTimeout := true
        notFoundReported := capturedConnectedDevice.isNone }
  | none =>
      { found := none
        scanStoppedOnSuccess := false
        scanStoppedOnTimeout := true
        notFoundReported := capturedConnectedDevice.isNone }

/-- C10: at the failing input — a scan for `ESP32_Health` whose matching
advertisement arrives at 5000 ms, started while `connectedDevice` is `none`
(the only state from which the UI offers a scan) — the device is found and
the scan is stopped on both paths, yet when the timer fires the stale
captured `connectedDevice` makes the handler report
`Device not found. Try again.` anyway. -/
theorem C10_stale_timeout_reports_not_found :
    (connectToDeviceByName "ESP32_Health" [(5000, "ESP32_Health")] none).found =
      some "ESP32_Health" ∧
    (connectToDeviceByName "ESP32_Health" [(5000, "ESP32_Health")] none).scanStoppedOnSuccess
      = true ∧
    (connectToDeviceByName "ESP32_Health" [(5000, "ESP32_Health")] none).scanStoppedOnTimeout
      = true ∧
    (connectToDeviceByName "ESP32_Health" [(5000, "ESP32_Health")] none).notFoundReported
      = true := by
  decide

end AiToy
